import Mathlib

/-!
Verification of the SocialWeave backend (src/backend/models.py, auth.py,
main.py) against its natural-language specification.  The relational store
is embedded as lists of rows; autoincrement primary keys are modelled by
explicit next-id counters; each endpoint is a function from the store (and
the authenticated caller's id) to an `Except HTTPError` result carrying the
response value and the updated store.
-/

namespace SocialWeave

/-- A user row, as declared in models.py (class User): id, email, username,
hashed_password, optional location. -/
structure User where
  id : Nat
  email : String
  username : String
  hashed_password : String
  location : Option String
deriving Repr, DecidableEq

/-- A post row (models.py, class Post): id, description, optional media_url,
owning user_id. -/
structure Post where
  id : Nat
  description : String
  media_url : Option String
  user_id : Nat
deriving Repr, DecidableEq

/-- A comment row (models.py, class Comment).  The table declares exactly the
columns id, text, user_id and post_id; no parent_comment_id column is
declared, so no parent reference is persisted. -/
structure Comment where
  id : Nat
  text : String
  user_id : Nat
  post_id : Nat
deriving Repr, DecidableEq

/-- A like row (models.py, class Like): composite primary key
(user_id, post_id). -/
structure Like where
  user_id : Nat
  post_id : Nat
deriving Repr, DecidableEq

/-- A follow edge (models.py, class Follow): composite primary key
(follower_id, followed_id). -/
structure Follow where
  follower_id : Nat
  followed_id : Nat
deriving Repr, DecidableEq

/-- The relational store.  The next*Id fields model the autoincrement
primary-key sequences of the user, post and comment tables. -/
structure DB where
  users : List User
  posts : List Post
  comments : List Comment
  likes : List Like
  follows : List Follow
  nextUserId : Nat
  nextPostId : Nat
  nextCommentId : Nat
deriving Repr, DecidableEq

/-- Input model UserCreate (main.py). -/
structure UserCreate where
  email : String
  username : String
  password : String
  location : Option String
deriving Repr, DecidableEq

/-- Input model UserLogin (main.py). -/
structure UserLogin where
  email : String
  password : String
deriving Repr, DecidableEq

/-- Input model PostCreate (main.py). -/
structure PostCreate where
  description : String
  media_url : Option String
deriving Repr, DecidableEq

/-- Input model CommentCreate (main.py): text plus the optional id of the
comment being replied to. -/
structure CommentCreate where
  text : String
  parent_comment_id : Option Nat
deriving Repr, DecidableEq

/-- An HTTPException raised by an endpoint: status code and detail string. -/
structure HTTPError where
  status : Nat
  detail : String
deriving Repr, DecidableEq

/-- Output model UserRead (main.py): the publicly viewable projection of a
user, exactly the fields id, username and location. -/
structure UserRead where
  id : Nat
  username : String
  location : Option String
deriving Repr, DecidableEq

/-- Output model CommentRead (main.py). -/
structure CommentRead where
  id : Nat
  text : String
  user : UserRead
deriving Repr, DecidableEq

/-- Output model LikeRead (main.py). -/
structure LikeRead where
  user : UserRead
deriving Repr, DecidableEq

/-- Output model PostRead (main.py): a post hydrated with its author, its
comments and its likes. -/
structure PostRead where
  id : Nat
  description : String
  media_url : Option String
  user : UserRead
  comments : List CommentRead
  likes : List LikeRead
deriving Repr, DecidableEq

/-- POST /register (main.py, register_user).  hash_fn stands for the
imported security.hash_password collaborator. -/
def register_user (hash_fn : String → String) (s : DB) (d : UserCreate) :
    Except HTTPError (User × DB) :=
  if s.users.any (fun u => u.email == d.email || u.username == d.username) then
    .error ⟨400, "Email or username already registered"⟩
  else
    let new_user : User :=
      ⟨s.nextUserId, d.email, d.username, hash_fn d.password, d.location⟩
    .ok (new_user, { s with users := s.users ++ [new_user],
                            nextUserId := s.nextUserId + 1 })

/-- JWT claims carried by an access token (auth.py encodes user_id, username
and exp). -/
structure Claims where
  user_id : Option Nat
  username : Option String
  exp : Nat
deriving Repr, DecidableEq

/-- A signed token: the claims together with a signature value. -/
structure JWTToken where
  claims : Claims
  sig : Nat
deriving Repr, DecidableEq

/-- The hardcoded signing key of auth.py. -/
def SECRET_KEY : String := "thiscouldbeanythingright"

/-- Token validity in minutes (auth.py, ACCESS_TOKEN_EXPIRE_MINUTES). -/
def ACCESS_TOKEN_EXPIRE_MINUTES : Nat := 30

/-- Modelled from the spec: the jose JWT library is an external collaborator
with a fixed contract (signed, tamper-evident, time-limited claims blob).
The signature is modelled as a keyed checksum over the claims. -/
def jwtSign (key : String) (c : Claims) : Nat :=
  (key.data.foldl (fun a ch => a * 31 + ch.toNat) 7) * 1000003
    + c.exp * 31 + (c.user_id.getD 0) * 7
    + ((c.username.getD "").data.foldl (fun a ch => a * 13 + ch.toNat) 3)

/-- Modelled from the spec: jose jwt.encode signs the claims with the key. -/
def jwt_encode (c : Claims) (key : String) : JWTToken :=
  ⟨c, jwtSign key c⟩

/-- Modelled from the spec: jose jwt.decode verifies the signature and the
exp claim against the current time, failing (JWTError) otherwise. -/
def jwt_decode (tok : JWTToken) (key : String) (now : Nat) : Option Claims :=
  if tok.sig == jwtSign key tok.claims then
    if now < tok.claims.exp then some tok.claims else none
  else none

/-- auth.py, create_access_token: claims carry the user id and username and
an absolute expiry 30 minutes from now (times in seconds). -/
def create_access_token (uid : Nat) (uname : String) (now : Nat) : JWTToken :=
  jwt_encode ⟨some uid, some uname, now + ACCESS_TOKEN_EXPIRE_MINUTES * 60⟩
    SECRET_KEY

/-- POST /login (main.py, login_user).  verify_fn stands for the imported
security.verify_password collaborator.  Returns the bearer token. -/
def login_user (verify_fn : String → String → Bool) (s : DB) (li : UserLogin)
    (now : Nat) : Except HTTPError JWTToken :=
  match s.users.find? (fun u => u.email == li.email) with
  | none => .error ⟨401, "Incorrect email or password"⟩
  | some user =>
    if verify_fn li.password user.hashed_password then
      .ok (create_access_token user.id user.username now)
    else
      .error ⟨401, "Incorrect email or password"⟩

/-- auth.py, get_current_user: decode the token, extract user_id, look the
user up; every failure raises 401 with the one generic detail string. -/
def get_current_user (s : DB) (tok : JWTToken) (now : Nat) :
    Except HTTPError User :=
  match jwt_decode tok SECRET_KEY now with
  | none => .error ⟨401, "Could not validate credentials"⟩
  | some payload =>
    match payload.user_id with
    | none => .error ⟨401, "Could not validate credentials"⟩
    | some uid =>
      match s.users.find? (fun u => u.id == uid) with
      | none => .error ⟨401, "Could not validate credentials"⟩
      | some user => .ok user

/-- Case-insensitive substring test, modelling SQLAlchemy icontains. -/
def icontains (hay q : String) : Bool :=
  (hay.toLower.toList).tails.any (fun t => (q.toLower.toList).isPrefixOf t)

/-- GET /users/search (main.py, search_users): all users whose username
contains the query, case-insensitively. -/
def search_users (s : DB) (q : String) : List User :=
  s.users.filter (fun u => icontains u.username q)

/-- The set of ids the given user follows (feed scope source; main.py reads
it off the ORM relationship User.following built on the Follow table). -/
def listFollowing (s : DB) (uid : Nat) : List Nat :=
  (s.follows.filter (fun f => f.follower_id == uid)).map (fun f => f.followed_id)

/-- POST /users/\x7bid\x7d/follow (main.py, follow_user). -/
def follow_user (s : DB) (current_uid : Nat) (user_id_to_follow : Nat) :
    Except HTTPError (String × DB) :=
  if user_id_to_follow == current_uid then
    .error ⟨400, "Cannot follow yourself"⟩
  else
    match s.users.find? (fun u => u.id == user_id_to_follow) with
    | none => .error ⟨404, "User not found"⟩
    | some _ =>
      if s.follows.any (fun f =>
          f.follower_id == current_uid && f.followed_id == user_id_to_follow) then
        .error ⟨400, "Already following this user"⟩
      else
        .ok (String.append "Successfully followed user "
               (toString user_id_to_follow),
             { s with follows :=
                 s.follows ++ [⟨current_uid, user_id_to_follow⟩] })

/-- POST /posts (main.py, create_post): always succeeds for an authenticated
caller; the new post gets the next post id. -/
def create_post (s : DB) (current_uid : Nat) (d : PostCreate) : Post × DB :=
  let new_post : Post := ⟨s.nextPostId, d.description, d.media_url, current_uid⟩
  (new_post, { s with posts := s.posts ++ [new_post],
                      nextPostId := s.nextPostId + 1 })

/-- The response body of the like toggle endpoint. -/
structure LikeToggleResult where
  liked : Bool
  message : String
deriving Repr, DecidableEq

/-- POST /posts/\x7bid\x7d/like (main.py, toggle_like_post): 404 if the post is
missing; otherwise delete the caller's existing like row, or insert one. -/
def toggle_like_post (s : DB) (current_uid : Nat) (post_id : Nat) :
    Except HTTPError (LikeToggleResult × DB) :=
  match s.posts.find? (fun p => p.id == post_id) with
  | none => .error ⟨404, "Post not found"⟩
  | some _ =>
    match s.likes.find?
        (fun l => l.user_id == current_uid && l.post_id == post_id) with
    | some _ =>
      let remaining :=
        s.likes.eraseP (fun l => l.user_id == current_uid && l.post_id == post_id)
      .ok (⟨false, "Post unliked successfully"⟩, { s with likes := remaining })
    | none =>
      .ok (⟨true, "Post liked successfully"⟩,
           { s with likes := s.likes ++ [⟨current_uid, post_id⟩] })

/-- Whether the given user currently has a like row on the given post. -/
def likeExists (s : DB) (uid : Nat) (pid : Nat) : Bool :=
  s.likes.any (fun l => l.user_id == uid && l.post_id == pid)

/-- POST /posts/\x7bid\x7d/comments (main.py, create_comment_on_post): 404 on a
missing post; 400 when a truthy (nonzero) parent_comment_id names no comment
of this post.  The created row has only the columns of the Comment table, so
the parent id passed to the constructor is not persisted. -/
def create_comment_on_post (s : DB) (current_uid : Nat) (post_id : Nat)
    (d : CommentCreate) : Except HTTPError (Comment × DB) :=
  match s.posts.find? (fun p => p.id == post_id) with
  | none => .error ⟨404, "Post not found"⟩
  | some _ =>
    let parentOk : Bool :=
      match d.parent_comment_id with
      | none => true
      | some pid =>
        -- Python truthiness: a parent id of 0 skips the check entirely
        if pid == 0 then true
        else
          match s.comments.find? (fun c => c.id == pid) with
          | none => false
          | some parent => parent.post_id == post_id
    if parentOk then
      let new_comment : Comment := ⟨s.nextCommentId, d.text, current_uid, post_id⟩
      .ok (new_comment, { s with comments := s.comments ++ [new_comment],
                                 nextCommentId := s.nextCommentId + 1 })
    else
      .error ⟨400, "Parent comment not found or does not belong to this post"⟩

/-- Descending order on posts by id (the ORDER BY Post.id DESC of the feed
query). -/
def postGe (a b : Post) : Prop := b.id ≤ a.id

instance : DecidableRel postGe := fun a b => Nat.decLe b.id a.id

instance : IsTotal Post postGe := ⟨fun a b => Nat.le_total b.id a.id⟩

instance : IsTrans Post postGe :=
  ⟨fun _ _ _ h1 h2 => Nat.le_trans h2 h1⟩

/-- The feed scope: followee ids with the caller's own id appended
(main.py, get_user_feed). -/
def feedScope (s : DB) (uid : Nat) : List Nat :=
  listFollowing s uid ++ [uid]

/-- GET /feed (main.py, get_user_feed): every post whose owner is in scope,
ordered by post id descending. -/
def get_user_feed (s : DB) (current_uid : Nat) : List Post :=
  List.insertionSort postGe
    (s.posts.filter (fun p => (feedScope s current_uid).contains p.user_id))

/-- The UserRead projection applied by FastAPI response filtering. -/
def userRead (u : User) : UserRead :=
  ⟨u.id, u.username, u.location⟩

/-- Hydrate the user with the given id into its public projection (ORM
relationship traversal; referential integrity makes the fallback moot). -/
def hydrateUser (s : DB) (uid : Nat) : UserRead :=
  match s.users.find? (fun u => u.id == uid) with
  | some u => userRead u
  | none => ⟨uid, "", none⟩

/-- The CommentRead hydration of a comment row. -/
def commentRead (s : DB) (c : Comment) : CommentRead :=
  ⟨c.id, c.text, hydrateUser s c.user_id⟩

/-- The PostRead hydration of a post row: author, comments and likes of the
post, each with its user projected through UserRead. -/
def postRead (s : DB) (p : Post) : PostRead :=
  ⟨p.id, p.description, p.media_url, hydrateUser s p.user_id,
   (s.comments.filter (fun c => c.post_id == p.id)).map (commentRead s),
   (s.likes.filter (fun l => l.post_id == p.id)).map
     (fun l => ⟨hydrateUser s l.user_id⟩)⟩

/-- The serialized response of GET /users/search. -/
def search_users_response (s : DB) (q : String) : List UserRead :=
  (search_users s q).map userRead

/-- The serialized response of GET /users/me. -/
def read_users_me (s : DB) (tok : JWTToken) (now : Nat) :
    Except HTTPError UserRead :=
  (get_current_user s tok now).map userRead

/-- The serialized response of GET /feed. -/
def feed_response (s : DB) (uid : Nat) : List PostRead :=
  (get_user_feed s uid).map (postRead s)

/-- The serialized response of POST /register. -/
def register_response (hash_fn : String → String) (s : DB) (d : UserCreate) :
    Except HTTPError UserRead :=
  (register_user hash_fn s d).map (fun r => userRead r.1)

/-- Erase the credential fields of a user, keeping id, username, location. -/
def scrub (u : User) : User :=
  { u with email := "", hashed_password := "" }

/-- Erase the credential fields of every stored user. -/
def scrubDB (s : DB) : DB :=
  { s with users := s.users.map scrub }

/-- Store well-formedness: every post id is below the next post id, and the
composite key of the like table is unique. -/
def WF (s : DB) : Prop :=
  (∀ p ∈ s.posts, p.id < s.nextPostId) ∧
  s.likes.Pairwise (fun a b => ¬(a.user_id = b.user_id ∧ a.post_id = b.post_id))

instance (s : DB) : Decidable (WF s) := by
  unfold WF
  have : DecidableRel
      (fun (a b : Like) => ¬(a.user_id = b.user_id ∧ a.post_id = b.post_id)) :=
    fun _ _ => instDecidableNot
  exact instDecidableAnd

instance {ε α : Type} [DecidableEq ε] [DecidableEq α] :
    DecidableEq (Except ε α) := fun x y => by
  cases x <;> cases y
  case error.error a b | ok.ok a b =>
    exact if h : a = b then .isTrue (by rw [h]) else .isFalse (by simp [h])
  all_goals exact .isFalse (by simp)

/-- A concrete stand-in for the external security.hash_password. -/
def hashW : String → String := fun p => String.append "h$" p

/-- A concrete stand-in for the external security.verify_password, matching
hashW. -/
def verifyW : String → String → Bool := fun p h => h == String.append "h$" p

/-- Concrete user for evaluation. -/
def aliceW : User := ⟨1, "alice@example.com", "alice", hashW "alicepw", none⟩

/-- Concrete user for evaluation. -/
def bobW : User := ⟨2, "bob@example.com", "bob", hashW "bobpw", some "Berlin"⟩

/-- Concrete user for evaluation. -/
def carlW : User := ⟨3, "carl@example.com", "carl", hashW "carlpw", none⟩

/-- Concrete post for evaluation. -/
def post1W : Post := ⟨1, "hello", none, 1⟩

/-- Concrete post for evaluation. -/
def post2W : Post := ⟨2, "from bob", some "/uploads/x.png", 2⟩

/-- Concrete post for evaluation. -/
def post3W : Post := ⟨3, "later", none, 1⟩

/-- Concrete comment on post 1 for evaluation. -/
def comment1W : Comment := ⟨1, "first", 2, 1⟩

/-- Concrete comment on post 1 for evaluation. -/
def comment2W : Comment := ⟨2, "second", 3, 1⟩

/-- A concrete well-formed store: three users, three posts, two comments on
post 1, no likes, and bob following alice. -/
def sW : DB :=
  ⟨[aliceW, bobW, carlW], [post1W, post2W, post3W], [comment1W, comment2W],
   [], [⟨2, 1⟩], 4, 4, 3⟩

/-- C5: follow(A, A) always fails with the 400 self-follow error; follow
fails with 404 when the target user does not exist; a successful
follow(A, B) inserts exactly the one directed edge (A, B), after which
repeating it fails with the 400 already-following error, and if A followed
nobody before, listFollowing A afterwards is exactly [B]. -/
theorem follow_user_semantics (s : DB) (a b : Nat) :
    (follow_user s a a = .error ⟨400, "Cannot follow yourself"⟩) ∧
    (b ≠ a → s.users.find? (fun u => u.id == b) = none →
      follow_user s a b = .error ⟨404, "User not found"⟩) ∧
    (∀ m s2, follow_user s a b = .ok (m, s2) →
      s2 = { s with follows := s.follows ++ [⟨a, b⟩] } ∧
      follow_user s2 a b = .error ⟨400, "Already following this user"⟩ ∧
      (listFollowing s a = [] → listFollowing s2 a = [b])) := by
  refine ⟨by simp [follow_user], ?_, ?_⟩
  · intro hne hfind
    simp [follow_user, hne, hfind]
  · intro m s2 hok
    by_cases hba : b = a
    · subst hba
      simp [follow_user] at hok
    · rcases hfind : s.users.find? (fun u => u.id == b) with _ | u
      · simp [follow_user, hba, hfind] at hok
      · by_cases hany : s.follows.any
            (fun f => f.follower_id == a && f.followed_id == b) = true
        · simp [follow_user, hba, hfind, hany] at hok
        · simp [follow_user, hba, hfind, hany] at hok
          obtain ⟨hm, hs2⟩ := hok
          refine ⟨hs2.symm, ?_, ?_⟩
          · have husers : s2.users = s.users := by rw [← hs2]
            have hfollows : s2.follows = s.follows ++ [⟨a, b⟩] := by rw [← hs2]
            simp [follow_user, hba, husers, hfind, hfollows, List.any_append]
          · intro h0
            have hfollows : s2.follows = s.follows ++ [⟨a, b⟩] := by rw [← hs2]
            have hfil : s.follows.filter (fun f => f.follower_id == a) = [] := by
              have h1 := h0
              simp [listFollowing] at h1
              rw [List.filter_eq_nil_iff]
              intro f hf
              simpa using h1 f hf
            simp [listFollowing, hfollows, List.filter_append, hfil]

/-- Evaluation of follow_user_semantics on the concrete store sW: carl (3)
follows alice (1) successfully, the edge is recorded, the repeat call
conflicts, and listFollowing 3 becomes exactly [1]. -/
theorem follow_user_semantics_witness :
    (follow_user sW 3 3 = .error ⟨400, "Cannot follow yourself"⟩) ∧
    (follow_user sW 3 9 = .error ⟨404, "User not found"⟩) ∧
    ({ sW with follows := sW.follows ++ [⟨3, 1⟩] } : DB) =
      { sW with follows := sW.follows ++ [⟨3, 1⟩] } ∧
    follow_user { sW with follows := sW.follows ++ [⟨3, 1⟩] } 3 1 =
      .error ⟨400, "Already following this user"⟩ ∧
    listFollowing { sW with follows := sW.follows ++ [⟨3, 1⟩] } 3 = [1] := by
  have h := follow_user_semantics sW 3 1
  have h9 := follow_user_semantics sW 3 9
  have hok : follow_user sW 3 1 =
      .ok (String.append "Successfully followed user " (toString 1),
           { sW with follows := sW.follows ++ [⟨3, 1⟩] }) := by rfl
  obtain ⟨hs2, hagain, hlist⟩ := h.2.2 _ _ hok
  exact ⟨h.1, h9.2.1 (by decide) (by decide), hs2, hagain, hlist (by decide)⟩

/-- C6: register fails with the one 400 conflict error whenever some existing
user has the same email or the same username (case-sensitive exact string
match, covering a duplicate email under a different username and vice
versa); on success the created user's credential field is exactly the
one-way hash of the password, exactly that user is appended to the store,
and the outcome depends on the password only through its hash, so the
plaintext is never persisted. -/
theorem register_user_semantics (hash_fn : String → String) (s : DB)
    (d : UserCreate) :
    ((∃ u ∈ s.users, u.email = d.email ∨ u.username = d.username) →
      register_user hash_fn s d =
        .error ⟨400, "Email or username already registered"⟩) ∧
    (∀ u s2, register_user hash_fn s d = .ok (u, s2) →
      u.hashed_password = hash_fn d.password ∧
      u = ⟨s.nextUserId, d.email, d.username, hash_fn d.password, d.location⟩ ∧
      s2 = { s with users := s.users ++ [u], nextUserId := s.nextUserId + 1 } ∧
      (∀ pw2, hash_fn pw2 = hash_fn d.password →
        register_user hash_fn s ⟨d.email, d.username, pw2, d.location⟩ =
          .ok (u, s2))) := by
  constructor
  · rintro ⟨u, hu, hcase⟩
    have hany : s.users.any
        (fun x => x.email == d.email || x.username == d.username) = true := by
      refine List.any_eq_true.mpr ⟨u, hu, ?_⟩
      rcases hcase with h | h <;> simp [h]
    simp [register_user, hany]
  · intro u s2 hok
    by_cases hany : s.users.any
        (fun x => x.email == d.email || x.username == d.username) = true
    · simp [register_user, hany] at hok
    · simp [register_user, hany] at hok
      obtain ⟨hu, hs2⟩ := hok
      subst hu
      subst hs2
      refine ⟨rfl, rfl, rfl, ?_⟩
      intro pw2 hpw
      simp [register_user, hany, hpw]

/-- Evaluation of register_user_semantics on sW: registering alice's email
under a new username conflicts; a fresh registration stores exactly the
hash of the password and appends the one new user. -/
theorem register_user_semantics_witness :
    register_user hashW sW ⟨"alice@example.com", "newname", "pw", none⟩ =
      .error ⟨400, "Email or username already registered"⟩ ∧
    (⟨4, "dora@example.com", "dora", hashW "dorapw", none⟩ : User).hashed_password
      = hashW "dorapw" ∧
    register_user hashW sW ⟨"dora@example.com", "dora", "dorapw", none⟩ =
      .ok (⟨4, "dora@example.com", "dora", hashW "dorapw", none⟩,
           { sW with
               users := sW.users ++
                 [⟨4, "dora@example.com", "dora", hashW "dorapw", none⟩],
               nextUserId := sW.nextUserId + 1 }) := by
  have h := register_user_semantics hashW sW
    ⟨"dora@example.com", "dora", "dorapw", none⟩
  have hok : register_user hashW sW ⟨"dora@example.com", "dora", "dorapw", none⟩ =
      .ok (⟨4, "dora@example.com", "dora", hashW "dorapw", none⟩,
           { sW with
               users := sW.users ++
                 [⟨4, "dora@example.com", "dora", hashW "dorapw", none⟩],
               nextUserId := sW.nextUserId + 1 }) := by rfl
  obtain ⟨hhash, _, _, hdep⟩ := h.2 _ _ hok
  have hconf := (register_user_semantics hashW sW
    ⟨"alice@example.com", "newname", "pw", none⟩).1
    ⟨aliceW, by decide, Or.inl (by decide)⟩
  exact ⟨hconf, hhash, hdep "dorapw" rfl⟩

/-- C8 counterexample: a failing authenticate call returns the detail
"Incorrect email or password", which is not the generic token-resolution
message; so not every authentication failure carries the message
"could not validate credentials". -/
theorem login_error_message_counterexample :
    login_user verifyW sW ⟨"ghost@example.com", "pw"⟩ 0 =
      .error ⟨401, "Incorrect email or password"⟩ ∧
    ("Incorrect email or password" ≠ "could not validate credentials") ∧
    ("Incorrect email or password" ≠ "Could not validate credentials") :=
  ⟨by rfl, by decide, by decide⟩

/-- C8 (amended): the two failing authenticate modes - email matching no
user, and correct email with failing password verification - return
identical errors, both status 401 with the one generic detail
"Incorrect email or password"; and every token-resolution failure carries
status 401 with the generic detail "Could not validate credentials". -/
theorem auth_failures_generic (verify_fn : String → String → Bool) (s : DB)
    (li1 li2 : UserLogin) (now : Nat) (tok : JWTToken) (now2 : Nat) :
    (s.users.find? (fun u => u.email == li1.email) = none →
      login_user verify_fn s li1 now =
        .error ⟨401, "Incorrect email or password"⟩) ∧
    (∀ u, s.users.find? (fun x => x.email == li2.email) = some u →
      verify_fn li2.password u.hashed_password = false →
      login_user verify_fn s li2 now =
        .error ⟨401, "Incorrect email or password"⟩) ∧
    (∀ e, get_current_user s tok now2 = .error e →
      e = ⟨401, "Could not validate credentials"⟩) := by
  refine ⟨?_, ?_, ?_⟩
  · intro h
    simp [login_user, h]
  · intro u hf hv
    simp [login_user, hf, hv]
  · intro e he
    unfold get_current_user at he
    split at he
    · exact (Except.error.inj he).symm
    · split at he
      · exact (Except.error.inj he).symm
      · split at he
        · exact (Except.error.inj he).symm
        · cases he

/-- Evaluation of auth_failures_generic on sW: an unknown email and a wrong
password for alice yield the identical 401 response, and a garbage token
resolves to the one generic 401 message. -/
theorem auth_failures_generic_witness :
    login_user verifyW sW ⟨"ghost@example.com", "pw"⟩ 0 =
      .error ⟨401, "Incorrect email or password"⟩ ∧
    login_user verifyW sW ⟨"alice@example.com", "wrongpw"⟩ 0 =
      .error ⟨401, "Incorrect email or password"⟩ ∧
    (⟨401, "Could not validate credentials"⟩ : HTTPError) =
      ⟨401, "Could not validate credentials"⟩ := by
  have h := auth_failures_generic verifyW sW ⟨"ghost@example.com", "pw"⟩
    ⟨"alice@example.com", "wrongpw"⟩ 0 ⟨⟨none, none, 0⟩, 0⟩ 0
  exact ⟨h.1 (by decide), h.2.1 aliceW (by decide) (by decide),
         h.2.2 _ (by decide)⟩

/-- After erasing the first like row of a given (user, post) pair from a
list with unique composite keys, no row of that pair remains. -/
theorem likes_eraseP_no_match (uid pid : Nat) :
    ∀ l : List Like,
      l.Pairwise (fun a b => ¬(a.user_id = b.user_id ∧ a.post_id = b.post_id)) →
      ((l.eraseP (fun x => x.user_id == uid && x.post_id == pid)).any
        (fun x => x.user_id == uid && x.post_id == pid)) = false := by
  intro l hl
  induction l with
  | nil => rfl
  | cons a t ih =>
    rcases List.pairwise_cons.mp hl with ⟨ha, ht⟩
    by_cases hpa : (a.user_id == uid && a.post_id == pid) = true
    · have h1 : (a :: t).eraseP (fun x => x.user_id == uid && x.post_id == pid)
          = t := List.eraseP_cons_of_pos (by simpa using hpa)
      rw [h1, List.any_eq_false]
      intro x hx hpx
      simp only [Bool.and_eq_true, beq_iff_eq] at hpa hpx
      exact ha x hx ⟨hpa.1.trans hpx.1.symm, hpa.2.trans hpx.2.symm⟩
    · have h1 : (a :: t).eraseP (fun x => x.user_id == uid && x.post_id == pid)
          = a :: t.eraseP (fun x => x.user_id == uid && x.post_id == pid) :=
        List.eraseP_cons_of_neg (by simpa using hpa)
      rw [h1]
      simp only [List.any_cons, Bool.or_eq_false_iff]
      exact ⟨by simpa using hpa, ih ht⟩

/-- C2: when the post exists, each toggleLike call succeeds, flips the
presence of the (user, post) like row, and returns liked equal to the new
presence; starting with no like present, two successive calls return
liked=true then liked=false, and the final store is exactly the starting
store. -/
theorem toggle_like_involution (s : DB) (uid pid : Nat) (hwf : WF s)
    (hpost : ∃ q ∈ s.posts, q.id = pid) :
    (∀ r s2, toggle_like_post s uid pid = .ok (r, s2) →
      r.liked = !(likeExists s uid pid) ∧
      likeExists s2 uid pid = r.liked) ∧
    (likeExists s uid pid = false →
      ∃ s1, toggle_like_post s uid pid =
          .ok (⟨true, "Post liked successfully"⟩, s1) ∧
        toggle_like_post s1 uid pid =
          .ok (⟨false, "Post unliked successfully"⟩, s)) := by
  obtain ⟨q, hq, hqid⟩ := hpost
  have hsome : (s.posts.find? (fun p => p.id == pid)).isSome := by
    rw [List.find?_isSome]
    exact ⟨q, hq, by simp [hqid]⟩
  obtain ⟨q0, hfindp⟩ := Option.isSome_iff_exists.mp hsome
  constructor
  · intro r s2 hok
    rcases hfind2 : s.likes.find?
        (fun x => x.user_id == uid && x.post_id == pid) with _ | l0
    · simp [toggle_like_post, hfindp, hfind2] at hok
      obtain ⟨hr, hs2⟩ := hok
      subst hr
      subst hs2
      have habs : likeExists s uid pid = false := by
        rw [likeExists, List.any_eq_false]
        exact List.find?_eq_none.mp hfind2
      refine ⟨by simp [habs], ?_⟩
      simp [likeExists, List.any_append]
    · simp [toggle_like_post, hfindp, hfind2] at hok
      obtain ⟨hr, hs2⟩ := hok
      subst hr
      subst hs2
      have hl0 := @List.find?_some Like
        (fun x : Like => x.user_id == uid && x.post_id == pid) l0 s.likes hfind2
      have hpres : likeExists s uid pid = true := by
        rw [likeExists, List.any_eq_true]
        exact ⟨l0, List.mem_of_find?_eq_some hfind2, hl0⟩
      rw [hpres]
      refine ⟨rfl, ?_⟩
      exact likes_eraseP_no_match uid pid s.likes hwf.2
  · intro habs
    have habs2 : ∀ x ∈ s.likes, ¬(x.user_id == uid && x.post_id == pid) = true := by
      rw [likeExists, List.any_eq_false] at habs
      exact habs
    have hfind2 : s.likes.find?
        (fun x => x.user_id == uid && x.post_id == pid) = none :=
      List.find?_eq_none.mpr habs2
    refine ⟨{ s with likes := s.likes ++ [⟨uid, pid⟩] }, ?_, ?_⟩
    · simp [toggle_like_post, hfindp, hfind2]
    · have hfind3 : (s.likes ++ [(⟨uid, pid⟩ : Like)]).find?
          (fun x => x.user_id == uid && x.post_id == pid) =
          some ⟨uid, pid⟩ := by
        rw [List.find?_append, hfind2]
        simp
      have herase : (s.likes ++ [(⟨uid, pid⟩ : Like)]).eraseP
          (fun x => x.user_id == uid && x.post_id == pid) = s.likes := by
        rw [List.eraseP_append_right _ habs2]
        simp
      simp [toggle_like_post, hfindp, hfind3, herase]

/-- Evaluation of toggle_like_involution on sW: bob toggles post 1 twice;
the calls return liked=true then liked=false and the store returns to sW. -/
theorem toggle_like_involution_witness :
    WF sW ∧ likeExists sW 2 1 = false ∧
    ∃ s1, toggle_like_post sW 2 1 =
        .ok (⟨true, "Post liked successfully"⟩, s1) ∧
      toggle_like_post s1 2 1 =
        .ok (⟨false, "Post unliked successfully"⟩, sW) := by
  refine ⟨by decide, by decide, ?_⟩
  exact (toggle_like_involution sW 2 1 (by decide)
    ⟨post1W, by decide, by decide⟩).2 (by decide)

/-- The head of a descending-sorted list is its strict maximum element. -/
theorem head_of_sorted_max {l : List Post} {p : Post}
    (hs : l.Sorted postGe) (hp : p ∈ l)
    (hmax : ∀ q ∈ l, q ≠ p → q.id < p.id) :
    l.head? = some p := by
  cases l with
  | nil => cases hp
  | cons h t =>
    have hht : ∀ b ∈ t, postGe h b := (List.sorted_cons.mp hs).1
    by_cases hhp : h = p
    · rw [hhp]
      rfl
    · exfalso
      have h1 : h.id < p.id := hmax h (List.mem_cons_self h t) hhp
      rcases List.mem_cons.mp hp with h2 | h2
      · exact hhp h2.symm
      · have h3 : p.id ≤ h.id := hht p h2
        exact absurd h1 (Nat.not_lt.mpr h3)

/-- Membership in a feed: exactly the stored posts whose owner is in the
follow scope of the querying user. -/
theorem mem_get_user_feed (uid : Nat) (p : Post) (s0 : DB) :
    p ∈ get_user_feed s0 uid ↔
      p ∈ s0.posts ∧ (p.user_id ∈ listFollowing s0 uid ∨ p.user_id = uid) := by
  rw [get_user_feed, List.mem_insertionSort, List.mem_filter]
  simp [feedScope, List.contains]

/-- C1: the feed of user uid contains exactly the stored posts whose owner
id is in listFollowing(uid) together with uid itself, in descending order
of post identifier; and with the follow set unchanged, a post just created
by an author in that scope is the head of the next feed result. -/
theorem feed_scope_order_fresh (s : DB) (uid : Nat) (hwf : WF s) :
    (∀ p, p ∈ get_user_feed s uid ↔
      (p ∈ s.posts ∧ (p.user_id ∈ listFollowing s uid ∨ p.user_id = uid))) ∧
    (get_user_feed s uid).Sorted postGe ∧
    (∀ d author, (author ∈ listFollowing s uid ∨ author = uid) →
      (get_user_feed (create_post s author d).2 uid).head? =
        some (create_post s author d).1) := by
  refine ⟨fun p => mem_get_user_feed uid p s, ?_, ?_⟩
  · unfold get_user_feed
    exact List.sorted_insertionSort postGe _
  · intro d author hauth
    have h2 : (create_post s author d).2.posts =
        s.posts ++ [(create_post s author d).1] := rfl
    apply head_of_sorted_max
    · unfold get_user_feed
      exact List.sorted_insertionSort postGe _
    · rw [mem_get_user_feed, h2]
      exact ⟨List.mem_append_right _ (List.mem_singleton.mpr rfl), hauth⟩
    · intro q hqmem hqne
      rw [mem_get_user_feed] at hqmem
      have hq1 := hqmem.1
      rw [h2] at hq1
      rcases List.mem_append.mp hq1 with h3 | h3
      · exact hwf.1 q h3
      · exact absurd (List.mem_singleton.mp h3) hqne

/-- Evaluation of feed_scope_order_fresh on sW: bob's feed contains bob's
own post, and a fresh post by alice (whom bob follows) heads bob's next
feed. -/
theorem feed_scope_order_fresh_witness :
    WF sW ∧
    post2W ∈ get_user_feed sW 2 ∧
    (get_user_feed (create_post sW 1 ⟨"fresh", none⟩).2 2).head? =
      some (create_post sW 1 ⟨"fresh", none⟩).1 := by
  have h := feed_scope_order_fresh sW 2 (by decide)
  exact ⟨by decide,
         (h.1 post2W).mpr ⟨by decide, Or.inr (by decide)⟩,
         h.2.2 ⟨"fresh", none⟩ 1 (Or.inl (by decide))⟩

/-- C3: evaluation of the code at the failing input.  Two createComment
calls on post 1 that differ only in which existing comment they name as the
parent produce identical results, and the stored row is exactly
(id, text, user_id, post_id): the Comment table declares no
parent_comment_id column, so the validated parent reference is not part of
the stored entity. -/
theorem comment_parent_dropped :
    create_comment_on_post sW 2 1 ⟨"reply", some 1⟩ =
      create_comment_on_post sW 2 1 ⟨"reply", some 2⟩ ∧
    create_comment_on_post sW 2 1 ⟨"reply", some 1⟩ =
      .ok (⟨3, "reply", 2, 1⟩,
           ⟨sW.users, sW.posts, sW.comments ++ [⟨3, "reply", 2, 1⟩],
            sW.likes, sW.follows, 4, 4, 4⟩) :=
  ⟨rfl, rfl⟩

/-- C4 counterexample: with post 1 present and no comment numbered 7, the
call with parentCommentId 7 fails with status 400, not the claimed 404;
likewise a parent comment of a different post yields 400. -/
theorem comment_invalid_parent_status_counterexample :
    create_comment_on_post sW 2 1 ⟨"hi", some 7⟩ =
      .error ⟨400, "Parent comment not found or does not belong to this post"⟩ ∧
    create_comment_on_post sW 2 2 ⟨"hi", some 1⟩ =
      .error ⟨400, "Parent comment not found or does not belong to this post"⟩ ∧
    (400 ≠ 404) :=
  ⟨rfl, rfl, by decide⟩

/-- C4 (amended): createComment fails with 404 when the target post does not
exist, and fails with status 400 (not 404) when a nonzero parentCommentId
does not reference an existing comment of the same post (a parent id of 0
is skipped by the truthiness test); both failure paths return an error
before any comment row is appended. -/
theorem create_comment_failures (s : DB) (uid pid : Nat) (d : CommentCreate) :
    (s.posts.find? (fun p => p.id == pid) = none →
      create_comment_on_post s uid pid d = .error ⟨404, "Post not found"⟩) ∧
    (∀ pc, (s.posts.find? (fun p => p.id == pid)).isSome →
      d.parent_comment_id = some pc → pc ≠ 0 →
      (∀ c ∈ s.comments, c.id = pc → c.post_id ≠ pid) →
      create_comment_on_post s uid pid d =
        .error ⟨400, "Parent comment not found or does not belong to this post"⟩)
    := by
  constructor
  · intro h
    simp [create_comment_on_post, h]
  · intro pc hpost hpc hpc0 hnone
    obtain ⟨q0, hfindp⟩ := Option.isSome_iff_exists.mp hpost
    rcases hfc : s.comments.find? (fun c => c.id == pc) with _ | c0
    · simp [create_comment_on_post, hfindp, hpc, hpc0, hfc]
    · have hcid := @List.find?_some Comment (fun c => c.id == pc) c0
        s.comments hfc
      have hcmem := List.mem_of_find?_eq_some hfc
      have hne : c0.post_id ≠ pid := hnone c0 hcmem (by simpa using hcid)
      simp [create_comment_on_post, hfindp, hpc, hpc0, hfc, hne]

/-- Evaluation of create_comment_failures on sW: a missing post yields 404;
naming comment 1 (which belongs to post 1) as parent of a comment on post 2
yields the 400 error. -/
theorem create_comment_failures_witness :
    create_comment_on_post sW 2 9 ⟨"hi", none⟩ =
      .error ⟨404, "Post not found"⟩ ∧
    create_comment_on_post sW 2 2 ⟨"hi", some 1⟩ =
      .error ⟨400, "Parent comment not found or does not belong to this post"⟩
    := by
  have h1 := (create_comment_failures sW 2 9 ⟨"hi", none⟩).1 (by decide)
  have h2 := (create_comment_failures sW 2 2 ⟨"hi", some 1⟩).2 1 (by decide)
    rfl (by decide) (by decide)
  exact ⟨h1, h2⟩

/-- A successfully decoded token yields exactly its own claims. -/
theorem jwt_decode_some_eq {tok : JWTToken} {key : String} {now : Nat}
    {c : Claims} (h : jwt_decode tok key now = some c) : c = tok.claims := by
  unfold jwt_decode at h
  split at h
  · split at h
    · exact (Option.some.inj h).symm
    · cases h
  · cases h

/-- C7: a successful authenticate followed by token issuance yields a token
that, within the 30-minute validity window, resolves to a user with the
same id that authenticated; and resolution fails with the 401 credentials
error for every token with an invalid signature, an expired timestamp, an
absent embedded user id, or an embedded id matching no stored user. -/
theorem token_round_trip (verify_fn : String → String → Bool) (s : DB)
    (li : UserLogin) (now now2 : Nat) :
    (∀ tok u0, s.users.find? (fun x => x.email == li.email) = some u0 →
      login_user verify_fn s li now = .ok tok →
      now2 < now + ACCESS_TOKEN_EXPIRE_MINUTES * 60 →
      ∃ u1, get_current_user s tok now2 = .ok u1 ∧ u1.id = u0.id) ∧
    (∀ tok : JWTToken, tok.sig ≠ jwtSign SECRET_KEY tok.claims →
      get_current_user s tok now2 =
        .error ⟨401, "Could not validate credentials"⟩) ∧
    (∀ tok : JWTToken, tok.claims.exp ≤ now2 →
      get_current_user s tok now2 =
        .error ⟨401, "Could not validate credentials"⟩) ∧
    (∀ tok : JWTToken, tok.claims.user_id = none →
      get_current_user s tok now2 =
        .error ⟨401, "Could not validate credentials"⟩) ∧
    (∀ (tok : JWTToken) uid2, tok.claims.user_id = some uid2 →
      s.users.find? (fun x => x.id == uid2) = none →
      get_current_user s tok now2 =
        .error ⟨401, "Could not validate credentials"⟩) := by
  refine ⟨?_, ?_, ?_, ?_, ?_⟩
  · intro tok u0 hfe hlog hexp
    unfold login_user at hlog
    rw [hfe] at hlog
    cases hv : verify_fn li.password u0.hashed_password with
    | false =>
      simp [hv] at hlog
    | true =>
      simp [hv] at hlog
      subst hlog
      have hmem := List.mem_of_find?_eq_some hfe
      have hids : (s.users.find? (fun x => x.id == u0.id)).isSome := by
        rw [List.find?_isSome]
        exact ⟨u0, hmem, by simp⟩
      obtain ⟨u1, hfu⟩ := Option.isSome_iff_exists.mp hids
      have hu1 := @List.find?_some User (fun x => x.id == u0.id) u1 s.users hfu
      refine ⟨u1, ?_, by simpa using hu1⟩
      have hdec : jwt_decode (create_access_token u0.id u0.username now)
          SECRET_KEY now2 =
          some ⟨some u0.id, some u0.username,
                now + ACCESS_TOKEN_EXPIRE_MINUTES * 60⟩ := by
        unfold jwt_decode create_access_token jwt_encode
        simp [hexp]
      unfold get_current_user
      rw [hdec]
      simp [hfu]
  · intro tok hsig
    have hs : (tok.sig == jwtSign SECRET_KEY tok.claims) = false := by
      simp [hsig]
    simp [get_current_user, jwt_decode, hs]
  · intro tok hexp
    have hd : jwt_decode tok SECRET_KEY now2 = none := by
      unfold jwt_decode
      cases hs : (tok.sig == jwtSign SECRET_KEY tok.claims) with
      | false => simp [hs]
      | true => simp [hs, Nat.not_lt.mpr hexp]
    simp [get_current_user, hd]
  · intro tok huid
    rcases hd : jwt_decode tok SECRET_KEY now2 with _ | payload
    · simp [get_current_user, hd]
    · have hp := jwt_decode_some_eq hd
      subst hp
      simp [get_current_user, hd, huid]
  · intro tok uid2 huid hfnone
    rcases hd : jwt_decode tok SECRET_KEY now2 with _ | payload
    · simp [get_current_user, hd]
    · have hp := jwt_decode_some_eq hd
      subst hp
      simp [get_current_user, hd, huid, hfnone]

/-- Evaluation of token_round_trip on sW: alice's login token resolves back
to user id 1 within the window, and four bad tokens (wrong signature,
expired, no embedded id, unknown id) each fail with the 401 error. -/
theorem token_round_trip_witness :
    (∃ u1, get_current_user sW (create_access_token 1 "alice" 100) 500 =
        .ok u1 ∧ u1.id = 1) ∧
    get_current_user sW ⟨⟨some 1, some "alice", 2000⟩, 0⟩ 500 =
      .error ⟨401, "Could not validate credentials"⟩ ∧
    get_current_user sW ⟨⟨some 1, some "alice", 400⟩, 7⟩ 500 =
      .error ⟨401, "Could not validate credentials"⟩ ∧
    get_current_user sW ⟨⟨none, none, 2000⟩, 7⟩ 500 =
      .error ⟨401, "Could not validate credentials"⟩ ∧
    get_current_user sW
      ⟨⟨some 9, none, 2000⟩, jwtSign SECRET_KEY ⟨some 9, none, 2000⟩⟩ 500 =
      .error ⟨401, "Could not validate credentials"⟩ := by
  have h := token_round_trip verifyW sW ⟨"alice@example.com", "alicepw"⟩ 100 500
  refine ⟨?_, h.2.1 _ (by decide), h.2.2.1 _ (by decide),
          h.2.2.2.1 _ rfl, h.2.2.2.2 _ 9 rfl (by decide)⟩
  obtain ⟨u1, hget, hid⟩ := h.1 (create_access_token 1 "alice" 100) aliceW
    (by decide) (by decide) (by decide)
  exact ⟨u1, hget, hid.trans rfl⟩

/-- Looking a user up by id commutes with erasing credential fields. -/
theorem find?_id_scrub (s : DB) (uid : Nat) :
    (scrubDB s).users.find? (fun u => u.id == uid) =
      (s.users.find? (fun u => u.id == uid)).map scrub := by
  have h0 : (scrubDB s).users = s.users.map scrub := rfl
  rw [h0, List.find?_map]
  rfl

/-- Hydrating a user id is unchanged by erasing credential fields. -/
theorem hydrateUser_scrub (s : DB) (uid : Nat) :
    hydrateUser (scrubDB s) uid = hydrateUser s uid := by
  unfold hydrateUser
  rw [find?_id_scrub]
  rcases hf : s.users.find? (fun u => u.id == uid) with _ | u <;>
    (rw [hf]; rfl)

/-- Hydrating a comment is unchanged by erasing credential fields. -/
theorem commentRead_scrub (s : DB) (c : Comment) :
    commentRead (scrubDB s) c = commentRead s c := by
  unfold commentRead
  rw [hydrateUser_scrub]

/-- Hydrating a post is unchanged by erasing credential fields. -/
theorem postRead_scrub (s : DB) (p : Post) :
    postRead (scrubDB s) p = postRead s p := by
  unfold postRead
  rw [hydrateUser_scrub]
  have hc : commentRead (scrubDB s) = commentRead s :=
    funext (fun c => commentRead_scrub s c)
  have hl : (fun l : Like => (⟨hydrateUser (scrubDB s) l.user_id⟩ : LikeRead))
      = (fun l : Like => ⟨hydrateUser s l.user_id⟩) :=
    funext (fun l => by rw [hydrateUser_scrub])
  rw [hc, hl]
  rfl

/-- C10: every user record serialized in an API response is the UserRead
projection carrying only id, username and location; the search, profile and
feed responses are unchanged when the stored email and hashed_password
fields are erased, and the register response exposes only the three public
fields of the new user. -/
theorem responses_hide_credentials (s : DB) (q : String) (tok : JWTToken)
    (now uid : Nat) (hash_fn : String → String) (d : UserCreate) :
    (∀ u : User, userRead u = ⟨u.id, u.username, u.location⟩ ∧
      userRead (scrub u) = userRead u) ∧
    search_users_response (scrubDB s) q = search_users_response s q ∧
    read_users_me (scrubDB s) tok now = read_users_me s tok now ∧
    feed_response (scrubDB s) uid = feed_response s uid ∧
    (∀ u s2, register_user hash_fn s d = .ok (u, s2) →
      register_response hash_fn s d =
        .ok ⟨s.nextUserId, d.username, d.location⟩) := by
  refine ⟨fun u => ⟨rfl, rfl⟩, ?_, ?_, ?_, ?_⟩
  · unfold search_users_response search_users
    have h0 : (scrubDB s).users = s.users.map scrub := rfl
    rw [h0, List.filter_map, List.map_map]
    rfl
  · unfold read_users_me get_current_user
    rcases hdec : jwt_decode tok SECRET_KEY now with _ | payload
    · rfl
    · rcases huid : payload.user_id with _ | uid2 <;> simp only [huid]
      rw [find?_id_scrub]
      rcases hf : s.users.find? (fun u => u.id == uid2) with _ | u <;>
        (rw [hf]; rfl)
  · unfold feed_response
    have hf : get_user_feed (scrubDB s) uid = get_user_feed s uid := rfl
    rw [hf]
    have hp : postRead (scrubDB s) = postRead s :=
      funext (fun p => postRead_scrub s p)
    rw [hp]
  · intro u s2 hok
    unfold register_response
    rw [hok]
    by_cases hany : s.users.any
        (fun x => x.email == d.email || x.username == d.username) = true
    · simp [register_user, hany] at hok
    · simp [register_user, hany] at hok
      obtain ⟨hu, _⟩ := hok
      subst hu
      rfl

/-- Evaluation of responses_hide_credentials on sW: the register response
for a fresh user exposes only id, username and location, and the search
response is unchanged by erasing stored credentials. -/
theorem responses_hide_credentials_witness :
    register_response hashW sW ⟨"dora@example.com", "dora", "dorapw", none⟩ =
      .ok ⟨4, "dora", none⟩ ∧
    search_users_response (scrubDB sW) "ali" =
      search_users_response sW "ali" := by
  have h := responses_hide_credentials sW "ali" ⟨⟨none, none, 0⟩, 0⟩ 0 2 hashW
    ⟨"dora@example.com", "dora", "dorapw", none⟩
  refine ⟨?_, h.2.1⟩
  exact h.2.2.2.2
    ⟨4, "dora@example.com", "dora", hashW "dorapw", none⟩
    ⟨sW.users ++ [⟨4, "dora@example.com", "dora", hashW "dorapw", none⟩],
     sW.posts, sW.comments, sW.likes, sW.follows, 5, 4, 3⟩ (by rfl)

end SocialWeave
